import Mathlib

/-!
Shallow embedding of the Recruiter Identity and Session Authentication
subsystem (backend/app/routes/recruiter.py): registration, login, profile
fetch/update, token verification, and the email-OTP challenge/response flow.
Timestamps are modelled as integers counting seconds; the persistent store is
a list of recruiter rows.
-/

/-- Timestamps in seconds (datetime values in the source). -/
abbrev Time := Int

/-- A recruiter row, after models.Recruiter: the columns selected by the login
query (lines 54-76) plus the OTP columns used by send-otp and verify-otp. -/
structure Recruiter where
  id : Nat
  name : String
  email : String
  password_hash : String
  email_verified : Bool
  email_otp : Option String
  email_otp_expiry : Option Time
  phone : Option String
  designation : Option String
  company_name : Option String
  company_logo : Option String
  website : Option String
  industry : Option String
  min_company_size : Option Nat
  max_company_size : Option Nat
  country : Option String
  state : Option String
  city : Option String
  zip : Option String
  address : Option String
  verified : Bool
  created_at : Time
  updated_at : Time
deriving DecidableEq

/-- The recruiter store: the rows of the recruiter table. -/
abbrev DB := List Recruiter

/-- SQLAlchemy .one() on a select filtered by email: exactly one matching row,
otherwise the call raises (modelled by none). -/
def oneByEmail (db : DB) (e : String) : Option Recruiter :=
  match db.filter (fun r => r.email == e) with
  | [r] => some r
  | _ => none

/-- Modelled from the spec: app.utils.security is not under src. Section 4.1:
hash is a one-way transform, verify compares a password against the stored
hash; salting is abstracted away, verification succeeds exactly on the
original password. -/
def hash_password (password : String) : String :=
  "bcrypt$" ++ password

/-- Modelled from the spec: app.utils.security.verify_password, section 4.1. -/
def verify_password (password stored_hash : String) : Bool :=
  stored_hash == hash_password password

/-- Modelled from the spec: app.utils.jwt.encode signs a payload embedding
the recruiter id and an expiry; the signed token is modelled by its payload. -/
structure JwtPayload where
  id : Nat
  exp : Time
deriving DecidableEq

/-- The Authorization response header: either absent or a Bearer token. -/
inductive AuthHeader where
  | noHeader : AuthHeader
  | bearer : JwtPayload → AuthHeader
deriving DecidableEq

/-- Python exceptions that escape a handler unhandled. -/
inductive PyError where
  | noResultFound : PyError
  | noneTypeComparison : PyError
  | indexError : PyError
deriving DecidableEq

/-- One day in seconds: the datetime.timedelta(days=1) used for token expiry. -/
def oneDay : Time := 86400

/-- The OTP generation of send_otp lines 178-179:
otp = str(int(random.random() * 1000000)); otp = otp + "0" * (6 - len(otp)).
The random draw is the integer argument n (in range 0..999999); the decimal
string is padded on the RIGHT with zeros up to width 6. -/
def genOtp (n : Nat) : String :=
  let s := Nat.repr n
  s ++ String.mk (List.replicate (6 - s.length) (Char.ofNat 48))

/-- Outcome of comparing a stored OTP with a presented code at a time, after
verify_otp lines 210-218: expired when the stored expiry is strictly before
now; otherwise mismatch when the stored code differs from the presented one;
otherwise accepted. -/
inductive Outcome where
  | Expired : Outcome
  | Mismatch : Outcome
  | Accepted : Outcome
deriving DecidableEq

/-- The OTP validation logic of verify_otp lines 210-218. The stored code is
an Option because the email_otp column is nullable (Python compares None to
the presented string with simple inequality, giving a mismatch). -/
def validateOtp (stored : Option String) (expiry : Time) (presented : String)
    (now : Time) : Outcome :=
  if expiry < now then Outcome.Expired
  else if stored ≠ some presented then Outcome.Mismatch
  else Outcome.Accepted

/-- Result of the POST /verify-otp handler (lines 199-239). -/
inductive VerifyOtpResult where
  | raised : PyError → VerifyOtpResult
  | expiredResp : VerifyOtpResult
  | mismatchResp : VerifyOtpResult
  | success : Recruiter → AuthHeader → VerifyOtpResult
deriving DecidableEq

/-- Mark a row as email-verified: the UPDATE of verify_otp line 222, which
sets only the email_verified column. -/
def setEmailVerified (r : Recruiter) : Recruiter :=
  { r with email_verified := true }

/-- The POST /verify-otp handler, lines 199-239. Selects the OTP columns by
email with .one() (raises on a missing row), compares None expiry against now
(a TypeError in Python), checks expiry then code, and on acceptance updates
email_verified, re-reads the row, and issues a Bearer token expiring one day
after now. Returns the HTTP-level result together with the updated store. -/
def verifyOtp (db : DB) (email presented : String) (now : Time) :
    VerifyOtpResult × DB :=
  match oneByEmail db email with
  | none => (VerifyOtpResult.raised PyError.noResultFound, db)
  | some r =>
    match r.email_otp_expiry with
    | none => (VerifyOtpResult.raised PyError.noneTypeComparison, db)
    | some expiry =>
      match validateOtp r.email_otp expiry presented now with
      | Outcome.Expired => (VerifyOtpResult.expiredResp, db)
      | Outcome.Mismatch => (VerifyOtpResult.mismatchResp, db)
      | Outcome.Accepted =>
        let db2 := db.map fun x => if x.email == email then setEmailVerified x else x
        match db2.filter (fun x => x.email == email) with
        | [] => (VerifyOtpResult.raised PyError.indexError, db2)
        | r2 :: _ =>
          (VerifyOtpResult.success r2 (AuthHeader.bearer ⟨r2.id, now + oneDay⟩), db2)

/-- Overwrite the pending-OTP columns of a row: the UPDATE of send_otp
lines 182-193. -/
def setOtpFields (otp : String) (expiry : Time) (r : Recruiter) : Recruiter :=
  { r with email_otp := some otp, email_otp_expiry := some expiry }

/-- The POST /send-otp handler, lines 174-196. Generates a code from the
random draw n, calls the email-delivery collaborator, and unconditionally
commits the new code with a 60-second expiry to every row matching the email
(zero rows when the email is unknown), then returns the success ack.
deliveryOk is the outcome of the delivery call; it is modelled from the spec
(services.brevo is not under src): section 6 describes send_otp_email as
fire-and-forget, so the handler cannot observe the outcome and deliveryOk is
unused on every path. -/
def sendOtp (db : DB) (email : String) (n : Nat) (now : Time)
    (deliveryOk : Bool) : String × DB :=
  let otp := genOtp n
  let db2 := db.map fun r => if r.email == email then setOtpFields otp (now + 60) r else r
  ("successfully sent otp", db2)

/-- Result of the POST /login handler (lines 47-98). -/
inductive LoginResult where
  | raised : PyError → LoginResult
  | invalidCredentials : LoginResult
  | ok : List String → AuthHeader → LoginResult
deriving DecidableEq

/-- The columns selected by the login query, lines 54-76. -/
def loginSelectFields : List String :=
  ["id", "name", "email", "password_hash", "email_verified", "phone",
   "designation", "company_name", "company_logo", "website", "industry",
   "min_company_size", "max_company_size", "country", "state", "city", "zip",
   "address", "verified", "created_at", "updated_at"]

/-- The POST /login handler, lines 47-98. Looks the row up by email with
.one() (raises on a missing row), verifies the password, on mismatch sets
status 500 with an invalid-credentials message, and on success issues a
one-day Bearer token and returns the selected columns with password_hash
popped from the dict. -/
def login (db : DB) (email password : String) (now : Time) : LoginResult :=
  match oneByEmail db email with
  | none => LoginResult.raised PyError.noResultFound
  | some r =>
    if verify_password password r.password_hash then
      LoginResult.ok (loginSelectFields.erase "password_hash")
        (AuthHeader.bearer ⟨r.id, now + oneDay⟩)
    else LoginResult.invalidCredentials

/-- The HTTP status attached to each login result: the password-mismatch
branch sets response.status_code = 500 (line 84); the success branch keeps
the default 200; an unhandled exception yields no handler-chosen status. -/
def loginStatus : LoginResult → Option Nat
  | LoginResult.raised _ => none
  | LoginResult.invalidCredentials => some 500
  | LoginResult.ok _ _ => some 200

/-- The registration payload, after schemas.RecruiterRegistration as consumed
by register_recruiter lines 27-40. -/
structure RecruiterRegistration where
  name : String
  email : String
  password : String
  phone : Option String
  designation : Option String
  company_name : Option String
  industry : Option String
  country : Option String
  state : Option String
  city : Option String
  zip : Option String
  address : Option String
deriving DecidableEq

/-- The POST / handler, lines 19-44: hashes the password and inserts a new
row. Column defaults are modelled from the spec (models.Recruiter is not
under src): section 3 says email_verified starts false and the OTP columns
are nullable; created_at and updated_at are server-assigned. -/
def registerRecruiter (db : DB) (d : RecruiterRegistration) (newId : Nat)
    (now : Time) : Recruiter × DB :=
  let r : Recruiter :=
    { id := newId, name := d.name, email := d.email,
      password_hash := hash_password d.password,
      email_verified := false, email_otp := none, email_otp_expiry := none,
      phone := d.phone, designation := d.designation,
      company_name := d.company_name, company_logo := none, website := none,
      industry := d.industry, min_company_size := none,
      max_company_size := none, country := d.country, state := d.state,
      city := d.city, zip := d.zip, address := d.address,
      verified := false, created_at := now, updated_at := now }
  (r, db ++ [r])

/-- Modelled from the spec: schemas.UpdateRecruiter is not under src.
Sections 3 and 4.5: the update payload carries an optional subset of the
profile attributes plus an optional new password; email_verified is not an
updatable field (it changes only through OTP verification). -/
structure UpdateRecruiter where
  name : Option String
  password : Option String
  phone : Option String
  designation : Option String
  company_name : Option String
  company_logo : Option String
  website : Option String
  industry : Option String
  min_company_size : Option Nat
  max_company_size : Option Nat
  country : Option String
  state : Option String
  city : Option String
  zip : Option String
  address : Option String
deriving DecidableEq

/-- A submitted optional column overrides the stored nullable column;
an omitted one (None, dropped by exclude_none) leaves it unchanged. -/
def updField (new old : Option α) : Option α :=
  match new with
  | some v => some v
  | none => old

/-- Apply the PUT / payload to a row, after upate_recruiter lines 121-133:
model_dump(exclude_none=True) keeps only the submitted fields, the plaintext
password is dropped and, when present, replaced by its hash. -/
def applyUpdate (u : UpdateRecruiter) (r : Recruiter) : Recruiter :=
  { r with
    name := u.name.getD r.name
    password_hash := (u.password.map hash_password).getD r.password_hash
    phone := updField u.phone r.phone
    designation := updField u.designation r.designation
    company_name := updField u.company_name r.company_name
    company_logo := updField u.company_logo r.company_logo
    website := updField u.website r.website
    industry := updField u.industry r.industry
    min_company_size := updField u.min_company_size r.min_company_size
    max_company_size := updField u.max_company_size r.max_company_size
    country := updField u.country r.country
    state := updField u.state r.state
    city := updField u.city r.city
    zip := updField u.zip r.zip
    address := updField u.address r.address }

/-- The PUT / handler store effect, lines 131-158: a single UPDATE of the
rows matching the authorized recruiter id. -/
def updateRecruiter (db : DB) (rid : Nat) (u : UpdateRecruiter) : DB :=
  db.map fun r => if r.id == rid then applyUpdate u r else r

/-- One inbound request to the subsystem, with its inputs. -/
inductive Op where
  | register : RecruiterRegistration → Nat → Time → Op
  | loginOp : String → String → Time → Op
  | fetch : Nat → Op
  | updateProfile : Nat → UpdateRecruiter → Op
  | verifyToken : Nat → Op
  | sendOtpOp : String → Nat → Time → Bool → Op
  | verifyOtpOp : String → String → Time → Op

/-- The effect of each operation on the recruiter store. Login, fetch and
verify-token only read. -/
def stepDB (db : DB) : Op → DB
  | Op.register d newId now => (registerRecruiter db d newId now).2
  | Op.loginOp _ _ _ => db
  | Op.fetch _ => db
  | Op.updateProfile rid u => updateRecruiter db rid u
  | Op.verifyToken _ => db
  | Op.sendOtpOp e n now ok => (sendOtp db e n now ok).2
  | Op.verifyOtpOp e c now => (verifyOtp db e c now).2

/-- Whether a verify-otp result is the accepted branch. -/
def isOtpAccepted : VerifyOtpResult → Bool
  | VerifyOtpResult.success _ _ => true
  | _ => false

/-- All columns of the recruiter entity: the login select list plus the two
OTP columns. Serializing a raw ORM row exposes exactly these. -/
def recruiterEntityFields : List String :=
  loginSelectFields ++ ["email_otp", "email_otp_expiry"]

/-- Modelled from the spec: schemas.Recruiter (the response_model of POST /
and GET /) is not under src. Sections 3 and 4.5: the public profile excludes
password_hash. -/
def publicProfileFields : List String :=
  recruiterEntityFields.erase "password_hash"

/-- Fields of the login success body, lines 96-98: the selected columns as a
dict with password_hash popped. -/
def loginBodyFields : List String :=
  loginSelectFields.erase "password_hash"

/-- Columns listed in the RETURNING clause of the PUT / update,
lines 135-154. -/
def updateReturningFields : List String :=
  ["id", "name", "email", "email_verified", "phone", "designation",
   "company_name", "company_logo", "website", "industry", "min_company_size",
   "max_company_size", "country", "state", "city", "zip", "address",
   "verified"]

/-- Fields serialized in the verify-otp response body: the error branches
return a one-key message dict, while the success branch (line 239) returns
the raw Recruiter entity with no response_model, exposing every column. -/
def verifyOtpBodyFields : VerifyOtpResult → List String
  | VerifyOtpResult.success _ _ => recruiterEntityFields
  | _ => ["message"]

/-- Fields serialized by GET /verify-token (lines 163-171): the handler
returns the raw Recruiter entity with no response_model. -/
def verifyTokenBodyFields : List String :=
  recruiterEntityFields

/-- A concrete registered recruiter row with a pending OTP, used to evaluate
the handlers on closed inputs. -/
def sampleRecruiter : Recruiter :=
  { id := 1, name := "Alice", email := "a@x.com",
    password_hash := hash_password "p1", email_verified := false,
    email_otp := some "420000", email_otp_expiry := some 100,
    phone := none, designation := none, company_name := none,
    company_logo := none, website := none, industry := none,
    min_company_size := none, max_company_size := none, country := none,
    state := none, city := none, zip := none, address := none,
    verified := false, created_at := 0, updated_at := 0 }

/-- A registered recruiter row that was never issued an OTP. -/
def sampleUnissued : Recruiter :=
  { sampleRecruiter with email_otp := none, email_otp_expiry := none }

/-- A recruiter row whose email is already verified. -/
def sampleVerified : Recruiter :=
  { sampleRecruiter with email_verified := true }

/-- Whether the store holds a row with the given email that is already
email-verified. -/
def hasVerifiedEmail (db : DB) (e : String) : Bool :=
  db.any fun x => x.email == e && x.email_verified

theorem digitChar_mod10_isDigit (n : Nat) :
    (Nat.digitChar (n % 10)).isDigit = true := by
  have h : n % 10 < 10 := Nat.mod_lt n (by decide)
  have hall : ∀ m : Fin 10, (Nat.digitChar m.val).isDigit = true := by decide
  exact hall ⟨n % 10, h⟩

theorem toDigitsCore_isDigit (f : Nat) :
    ∀ (n : Nat) (l : List Char), (∀ c ∈ l, c.isDigit = true) →
      ∀ c ∈ Nat.toDigitsCore 10 f n l, c.isDigit = true := by
  induction f with
  | zero => intro n l hl c hc; exact hl c hc
  | succ f ih =>
    intro n l hl c hc
    have hstep : Nat.toDigitsCore 10 (f + 1) n l =
        if n / 10 = 0 then Nat.digitChar (n % 10) :: l
        else Nat.toDigitsCore 10 f (n / 10) (Nat.digitChar (n % 10) :: l) := rfl
    rw [hstep] at hc
    by_cases h : n / 10 = 0
    · rw [if_pos h] at hc
      rcases List.mem_cons.mp hc with rfl | hcl
      · exact digitChar_mod10_isDigit n
      · exact hl c hcl
    · rw [if_neg h] at hc
      refine ih (n / 10) (Nat.digitChar (n % 10) :: l) ?_ c hc
      intro c2 hc2
      rcases List.mem_cons.mp hc2 with rfl | h2
      · exact digitChar_mod10_isDigit n
      · exact hl c2 h2

theorem repr_chars_isDigit (n : Nat) :
    ∀ c ∈ (Nat.repr n).data, c.isDigit = true := by
  intro c hc
  exact toDigitsCore_isDigit (n + 1) n [] (by intro c2 h2; cases h2) c hc

/-- C6 counterexample: the generator pads on the right, so drawing 42 yields
"420000" and not the left-padded "000042" stated by the claim. -/
theorem genOtp_42_not_left_padded :
    genOtp 42 = "420000" ∧ genOtp 42 ≠ "000042" := by decide

/-- C6 (amended): for every random draw below 1000000, the generated code is
a 6-character numeric string obtained by RIGHT-padding the decimal
representation of the integer with zeros to width 6 (so drawing 42 yields
"420000"); every generated code consists only of digits. -/
theorem genOtp_six_digit_string (n : Nat) (h : n < 1000000) :
    (genOtp n).length = 6 ∧ (genOtp n).data.all Char.isDigit = true := by
  have hpow : (10 : Nat) ^ 6 = 1000000 := by norm_num
  have hle : (Nat.repr n).length ≤ 6 :=
    Nat.repr_length n 6 (by norm_num) (hpow ▸ h)
  constructor
  · show (Nat.repr n ++
        String.mk (List.replicate (6 - (Nat.repr n).length) (Char.ofNat 48))).length = 6
    rw [String.length_append]
    have hrep : (String.mk
        (List.replicate (6 - (Nat.repr n).length) (Char.ofNat 48))).length
        = 6 - (Nat.repr n).length := by
      show (List.replicate (6 - (Nat.repr n).length) (Char.ofNat 48)).length = _
      simp
    rw [hrep]
    omega
  · rw [List.all_eq_true]
    intro c hc
    have hdata : (genOtp n).data = (Nat.repr n).data ++
        List.replicate (6 - (Nat.repr n).length) (Char.ofNat 48) := by
      simp [genOtp]
    rw [hdata] at hc
    rcases List.mem_append.mp hc with h1 | h2
    · exact repr_chars_isDigit n c h1
    · rw [List.eq_of_mem_replicate h2]; decide

/-- C6 witness: the amended statement evaluated at the draw 42. -/
theorem genOtp_six_digit_string_witness :
    42 < 1000000 ∧
      ((genOtp 42).length = 6 ∧ (genOtp 42).data.all Char.isDigit = true) :=
  ⟨by decide, genOtp_six_digit_string 42 (by decide)⟩

/-- C1 counterexample: a validation performed exactly at the stored expiry
with the correct code is Accepted, not Expired as the claim states. -/
theorem validateOtp_at_expiry_not_expired :
    validateOtp (some "123456") 100 "123456" 100 = Outcome.Accepted ∧
    validateOtp (some "123456") 100 "123456" 100 ≠ Outcome.Expired := by decide

/-- C1 (amended): validation is Expired whenever now is strictly after the
stored expiry, regardless of the presented code; Mismatch when now is at or
before the expiry and the presented code differs from the stored one; and
Accepted when now is at or before the expiry and the codes agree. In
particular validating exactly at now = expiry with the correct code yields
Accepted. -/
theorem validateOtp_outcome_cases (code presented : String) (expiry now : Time) :
    (expiry < now → validateOtp (some code) expiry presented now = Outcome.Expired) ∧
    (now ≤ expiry → presented ≠ code →
      validateOtp (some code) expiry presented now = Outcome.Mismatch) ∧
    (now ≤ expiry → presented = code →
      validateOtp (some code) expiry presented now = Outcome.Accepted) := by
  unfold validateOtp
  refine ⟨fun h => ?_, fun h hne => ?_, fun h heq => ?_⟩
  · rw [if_pos h]
  · rw [if_neg (Int.not_lt.mpr h)]
    rw [if_pos (show some code ≠ some presented by
      intro hcontra; injection hcontra with hh; exact hne hh.symm)]
  · rw [if_neg (Int.not_lt.mpr h)]
    rw [if_neg (show ¬(some code ≠ some presented) by simp [heq])]

/-- C1 witness: the three branches of the amended statement at concrete
codes and times. -/
theorem validateOtp_outcome_cases_witness :
    validateOtp (some "123456") 100 "123456" 101 = Outcome.Expired ∧
    validateOtp (some "123456") 100 "654321" 99 = Outcome.Mismatch ∧
    validateOtp (some "123456") 100 "123456" 99 = Outcome.Accepted :=
  ⟨(validateOtp_outcome_cases "123456" "123456" 100 101).1 (by decide),
   (validateOtp_outcome_cases "123456" "654321" 100 99).2.1 (by decide) (by decide),
   (validateOtp_outcome_cases "123456" "123456" 100 99).2.2 (by decide) (by decide)⟩

/-- C2: a send-otp request whose email belongs to no registered recruiter
still returns the success acknowledgement (the UPDATE matches zero rows and
the handler has no failure path), contradicting the claimed typed NotFound
failure. -/
theorem sendOtp_unknown_email_reports_success :
    sendOtp [sampleRecruiter] "nobody@x.com" 5 0 true
      = ("successfully sent otp", [sampleRecruiter]) := by decide

/-- C3: a login with a registered email and a non-matching password reaches
the invalid-credentials branch, whose HTTP status is the generic server
error 500 rather than an authentication-failure client status. -/
theorem login_wrong_password_returns_500 :
    login [sampleRecruiter] "a@x.com" "wrong" 0 = LoginResult.invalidCredentials ∧
    loginStatus (login [sampleRecruiter] "a@x.com" "wrong" 0) = some 500 := by decide

/-- C4: a successful verify-otp response serializes the raw recruiter entity
(the handler has no response_model), so its body contains password_hash; the
verify-token response has the same shape. -/
theorem verifyOtp_success_body_has_password_hash :
    isOtpAccepted (verifyOtp [sampleRecruiter] "a@x.com" "420000" 50).1 = true ∧
    "password_hash" ∈
      verifyOtpBodyFields (verifyOtp [sampleRecruiter] "a@x.com" "420000" 50).1 ∧
    "password_hash" ∈ verifyTokenBodyFields := by decide

theorem oneByEmail_filter {db : DB} {e : String} {r : Recruiter}
    (h : oneByEmail db e = some r) :
    db.filter (fun x => x.email == e) = [r] := by
  unfold oneByEmail at h
  cases hl : db.filter (fun x => x.email == e) with
  | nil => rw [hl] at h; simp at h
  | cons a t =>
    cases t with
    | nil => rw [hl] at h; simp at h; rw [h]
    | cons b t2 => rw [hl] at h; simp at h

theorem filter_map_setVerified (db : DB) (e : String) :
    (db.map fun x => if x.email == e then setEmailVerified x else x).filter
        (fun x => x.email == e)
      = (db.filter (fun x => x.email == e)).map setEmailVerified := by
  induction db with
  | nil => rfl
  | cons a t ih =>
    by_cases h : (a.email == e) = true
    · have hs : ((setEmailVerified a).email == e) = true := h
      rw [List.map_cons, if_pos h, List.filter_cons, if_pos hs,
        List.filter_cons, if_pos h, List.map_cons, ih]
    · rw [List.map_cons, if_neg h, List.filter_cons, if_neg h,
        List.filter_cons, if_neg h, ih]

theorem verifyOtp_accepted {db : DB} {e c : String} {now : Time}
    {r : Recruiter} {exp : Time} (h1 : oneByEmail db e = some r)
    (h2 : r.email_otp_expiry = some exp)
    (h3 : validateOtp r.email_otp exp c now = Outcome.Accepted) :
    verifyOtp db e c now =
      (VerifyOtpResult.success (setEmailVerified r)
          (AuthHeader.bearer ⟨r.id, now + oneDay⟩),
        db.map fun x => if x.email == e then setEmailVerified x else x) := by
  have hf : (db.map fun x => if x.email == e then setEmailVerified x else x).filter
      (fun x => x.email == e) = [setEmailVerified r] := by
    rw [filter_map_setVerified, oneByEmail_filter h1]
    rfl
  unfold verifyOtp
  simp only [h1, h2, h3, hf]
  rfl

theorem verifyOtp_db_shape (db : DB) (e c : String) (now : Time) :
    (verifyOtp db e c now).2 = db ∨
    ((verifyOtp db e c now).2
        = db.map (fun x => if x.email == e then setEmailVerified x else x) ∧
      isOtpAccepted (verifyOtp db e c now).1 = true) := by
  cases h1 : oneByEmail db e with
  | none => left; simp [verifyOtp, h1]
  | some r =>
    cases h2 : r.email_otp_expiry with
    | none => left; simp [verifyOtp, h1, h2]
    | some exp =>
      cases h3 : validateOtp r.email_otp exp c now with
      | Expired => left; simp [verifyOtp, h1, h2, h3]
      | Mismatch => left; simp [verifyOtp, h1, h2, h3]
      | Accepted =>
        right
        rw [verifyOtp_accepted h1 h2 h3]
        exact ⟨rfl, rfl⟩

/-- C10: a verify-otp request for an email belonging to no registered
recruiter raises the unhandled row-lookup exception, and one for a recruiter
whose email_otp_expiry is null raises the unhandled None-to-timestamp
comparison, instead of returning a typed failure response. -/
theorem verifyOtp_unknown_or_null_expiry_raises (db : DB) (e c : String)
    (now : Time) :
    ((∀ x ∈ db, x.email ≠ e) →
      (verifyOtp db e c now).1 = VerifyOtpResult.raised PyError.noResultFound) ∧
    (∀ r, oneByEmail db e = some r → r.email_otp_expiry = none →
      (verifyOtp db e c now).1
        = VerifyOtpResult.raised PyError.noneTypeComparison) := by
  constructor
  · intro h
    have hf : db.filter (fun x => x.email == e) = [] := by
      rw [List.filter_eq_nil_iff]
      intro a ha
      simpa using h a ha
    simp [verifyOtp, oneByEmail, hf]
  · intro r h1 h2
    simp [verifyOtp, h1, h2]

/-- C10 witness: the two exception paths evaluated on concrete stores. -/
theorem verifyOtp_unknown_or_null_expiry_raises_witness :
    (verifyOtp [sampleRecruiter] "b@x.com" "000000" 0).1
        = VerifyOtpResult.raised PyError.noResultFound ∧
    (verifyOtp [sampleUnissued] "a@x.com" "000000" 0).1
        = VerifyOtpResult.raised PyError.noneTypeComparison :=
  ⟨(verifyOtp_unknown_or_null_expiry_raises [sampleRecruiter] "b@x.com" "000000" 0).1
      (by decide),
   (verifyOtp_unknown_or_null_expiry_raises [sampleUnissued] "a@x.com" "000000" 0).2
      sampleUnissued (by decide) (by decide)⟩

/-- C5: a verify-otp request for a registered email whose stored OTP is
unexpired at now and equals the presented code sets email_verified to true,
returns the updated row, and sets the Authorization header to a Bearer token
embedding the recruiter id and an expiry one day (86400 seconds) after
now. -/
theorem verifyOtp_success_sets_verified_and_token (r : Recruiter) (c : String)
    (exp now : Time) (h1 : r.email_otp = some c)
    (h2 : r.email_otp_expiry = some exp) (h3 : now < exp) :
    verifyOtp [r] r.email c now
        = (VerifyOtpResult.success (setEmailVerified r)
            (AuthHeader.bearer ⟨r.id, now + oneDay⟩), [setEmailVerified r]) ∧
    (setEmailVerified r).email_verified = true ∧ oneDay = 86400 := by
  have hone : oneByEmail [r] r.email = some r := by simp [oneByEmail]
  have hval : validateOtp r.email_otp exp c now = Outcome.Accepted := by
    rw [h1]
    unfold validateOtp
    rw [if_neg (Int.not_lt.mpr (le_of_lt h3))]
    rw [if_neg (show ¬(some c ≠ some c) by simp)]
  refine ⟨?_, rfl, rfl⟩
  rw [verifyOtp_accepted hone h2 hval]
  simp

/-- C5 witness: the accepted path evaluated on a concrete recruiter. -/
theorem verifyOtp_success_sets_verified_and_token_witness :
    sampleRecruiter.email_otp = some "420000" ∧
    sampleRecruiter.email_otp_expiry = some 100 ∧ (50 : Time) < 100 ∧
    (verifyOtp [sampleRecruiter] sampleRecruiter.email "420000" 50
        = (VerifyOtpResult.success (setEmailVerified sampleRecruiter)
            (AuthHeader.bearer ⟨sampleRecruiter.id, 50 + oneDay⟩),
          [setEmailVerified sampleRecruiter]) ∧
      (setEmailVerified sampleRecruiter).email_verified = true ∧
      oneDay = 86400) :=
  ⟨by decide, by decide, by decide,
   verifyOtp_success_sets_verified_and_token sampleRecruiter "420000" 100 50
     (by decide) (by decide) (by decide)⟩

/-- C7: a send-otp request for a registered email commits the fresh code and
expiry to the store even when the delivery call failed (the handler never
consults the delivery outcome), contradicting the claimed atomicity. -/
theorem sendOtp_commits_despite_delivery_failure :
    sampleUnissued.email_otp = none ∧ sampleUnissued.email_otp_expiry = none ∧
    (sendOtp [sampleUnissued] "a@x.com" 42 0 false).2
      = [{ sampleUnissued with
            email_otp := some "420000", email_otp_expiry := some 60 }] := by decide

/-- C9: a successful verify-otp mutates only the email_verified column of
the stored row: the pending email_otp and email_otp_expiry are not cleared
and every other column keeps its value. -/
theorem verifyOtp_success_frame (r : Recruiter) (c : String) (exp now : Time)
    (h1 : r.email_otp = some c) (h2 : r.email_otp_expiry = some exp)
    (h3 : now < exp) :
    (verifyOtp [r] r.email c now).2 = [setEmailVerified r] ∧
    (setEmailVerified r).email_verified = true ∧
    (setEmailVerified r).email_otp = r.email_otp ∧
    (setEmailVerified r).email_otp_expiry = r.email_otp_expiry ∧
    (setEmailVerified r).id = r.id ∧
    (setEmailVerified r).name = r.name ∧
    (setEmailVerified r).email = r.email ∧
    (setEmailVerified r).password_hash = r.password_hash ∧
    (setEmailVerified r).phone = r.phone ∧
    (setEmailVerified r).designation = r.designation ∧
    (setEmailVerified r).company_name = r.company_name ∧
    (setEmailVerified r).company_logo = r.company_logo ∧
    (setEmailVerified r).website = r.website ∧
    (setEmailVerified r).industry = r.industry ∧
    (setEmailVerified r).min_company_size = r.min_company_size ∧
    (setEmailVerified r).max_company_size = r.max_company_size ∧
    (setEmailVerified r).country = r.country ∧
    (setEmailVerified r).state = r.state ∧
    (setEmailVerified r).city = r.city ∧
    (setEmailVerified r).zip = r.zip ∧
    (setEmailVerified r).address = r.address ∧
    (setEmailVerified r).verified = r.verified ∧
    (setEmailVerified r).created_at = r.created_at ∧
    (setEmailVerified r).updated_at = r.updated_at := by
  have hone : oneByEmail [r] r.email = some r := by simp [oneByEmail]
  have hval : validateOtp r.email_otp exp c now = Outcome.Accepted := by
    rw [h1]
    unfold validateOtp
    rw [if_neg (Int.not_lt.mpr (le_of_lt h3))]
    rw [if_neg (show ¬(some c ≠ some c) by simp)]
  refine ⟨?_, rfl, rfl, rfl, rfl, rfl, rfl, rfl, rfl, rfl, rfl, rfl, rfl,
    rfl, rfl, rfl, rfl, rfl, rfl, rfl, rfl, rfl, rfl, rfl⟩
  rw [verifyOtp_accepted hone h2 hval]
  simp

/-- C9 witness: the frame condition evaluated on a concrete recruiter. -/
theorem verifyOtp_success_frame_witness :
    sampleRecruiter.email_otp = some "420000" ∧
    sampleRecruiter.email_otp_expiry = some 100 ∧ (50 : Time) < 100 ∧
    ((verifyOtp [sampleRecruiter] sampleRecruiter.email "420000" 50).2
        = [setEmailVerified sampleRecruiter] ∧
      (setEmailVerified sampleRecruiter).email_verified = true ∧
      (setEmailVerified sampleRecruiter).email_otp = sampleRecruiter.email_otp ∧
      (setEmailVerified sampleRecruiter).email_otp_expiry
        = sampleRecruiter.email_otp_expiry ∧
      (setEmailVerified sampleRecruiter).id = sampleRecruiter.id ∧
      (setEmailVerified sampleRecruiter).name = sampleRecruiter.name ∧
      (setEmailVerified sampleRecruiter).email = sampleRecruiter.email ∧
      (setEmailVerified sampleRecruiter).password_hash
        = sampleRecruiter.password_hash ∧
      (setEmailVerified sampleRecruiter).phone = sampleRecruiter.phone ∧
      (setEmailVerified sampleRecruiter).designation
        = sampleRecruiter.designation ∧
      (setEmailVerified sampleRecruiter).company_name
        = sampleRecruiter.company_name ∧
      (setEmailVerified sampleRecruiter).company_logo
        = sampleRecruiter.company_logo ∧
      (setEmailVerified sampleRecruiter).website = sampleRecruiter.website ∧
      (setEmailVerified sampleRecruiter).industry = sampleRecruiter.industry ∧
      (setEmailVerified sampleRecruiter).min_company_size
        = sampleRecruiter.min_company_size ∧
      (setEmailVerified sampleRecruiter).max_company_size
        = sampleRecruiter.max_company_size ∧
      (setEmailVerified sampleRecruiter).country = sampleRecruiter.country ∧
      (setEmailVerified sampleRecruiter).state = sampleRecruiter.state ∧
      (setEmailVerified sampleRecruiter).city = sampleRecruiter.city ∧
      (setEmailVerified sampleRecruiter).zip = sampleRecruiter.zip ∧
      (setEmailVerified sampleRecruiter).address = sampleRecruiter.address ∧
      (setEmailVerified sampleRecruiter).verified = sampleRecruiter.verified ∧
      (setEmailVerified sampleRecruiter).created_at
        = sampleRecruiter.created_at ∧
      (setEmailVerified sampleRecruiter).updated_at
        = sampleRecruiter.updated_at) :=
  ⟨by decide, by decide, by decide,
   verifyOtp_success_frame sampleRecruiter "420000" 100 50
     (by decide) (by decide) (by decide)⟩

theorem hasVerifiedEmail_intro {db : DB} {x : Recruiter} {e : String}
    (hmem : x ∈ db) (he : x.email = e) (hv : x.email_verified = true) :
    hasVerifiedEmail db e = true := by
  rw [hasVerifiedEmail, List.any_eq_true]
  exact ⟨x, hmem, by rw [he, hv]; simp⟩

/-- C8: across every operation of the subsystem, a row that is already
email-verified stays email-verified (no operation reverts the flag), and a
row can only become email-verified through the accepted branch of a
verify-otp operation. -/
theorem email_verified_monotone (db : DB) (op : Op) :
    (∀ y ∈ db, y.email_verified = true →
      hasVerifiedEmail (stepDB db op) y.email = true) ∧
    (∀ x ∈ stepDB db op, x.email_verified = true →
      hasVerifiedEmail db x.email = true ∨
      ∃ e c now, op = Op.verifyOtpOp e c now ∧
        isOtpAccepted (verifyOtp db e c now).1 = true) := by
  cases op with
  | register d newId now =>
    constructor
    · intro y hy hv
      exact hasVerifiedEmail_intro (List.mem_append_left _ hy) rfl hv
    · intro x hx hv
      rcases List.mem_append.mp hx with h | h
      · exact Or.inl (hasVerifiedEmail_intro h rfl hv)
      · rw [List.mem_singleton.mp h] at hv
        exact Bool.noConfusion hv
  | loginOp e p now =>
    exact ⟨fun y hy hv => hasVerifiedEmail_intro hy rfl hv,
      fun x hx hv => Or.inl (hasVerifiedEmail_intro hx rfl hv)⟩
  | fetch rid =>
    exact ⟨fun y hy hv => hasVerifiedEmail_intro hy rfl hv,
      fun x hx hv => Or.inl (hasVerifiedEmail_intro hx rfl hv)⟩
  | verifyToken rid =>
    exact ⟨fun y hy hv => hasVerifiedEmail_intro hy rfl hv,
      fun x hx hv => Or.inl (hasVerifiedEmail_intro hx rfl hv)⟩
  | updateProfile rid u =>
    constructor
    · intro y hy hv
      have hmem : (if y.id == rid then applyUpdate u y else y)
          ∈ stepDB db (Op.updateProfile rid u) :=
        List.mem_map_of_mem _ hy
      refine hasVerifiedEmail_intro hmem ?_ ?_
      · by_cases h : (y.id == rid) = true
        · rw [if_pos h]; rfl
        · rw [if_neg h]
      · by_cases h : (y.id == rid) = true
        · rw [if_pos h]; exact hv
        · rw [if_neg h]; exact hv
    · intro x hx hv
      have hx2 : ∃ y, y ∈ db ∧ (if y.id == rid then applyUpdate u y else y) = x := by
        simpa [stepDB, updateRecruiter] using hx
      rcases hx2 with ⟨y, hy, hfy⟩
      left
      refine hasVerifiedEmail_intro hy ?_ ?_
      · rw [← hfy]
        by_cases h : (y.id == rid) = true
        · rw [if_pos h]; rfl
        · rw [if_neg h]
      · rw [← hfy] at hv
        by_cases h : (y.id == rid) = true
        · rw [if_pos h] at hv; exact hv
        · rw [if_neg h] at hv; exact hv
  | sendOtpOp e n now ok =>
    constructor
    · intro y hy hv
      have hmem : (if y.email == e then setOtpFields (genOtp n) (now + 60) y else y)
          ∈ stepDB db (Op.sendOtpOp e n now ok) :=
        List.mem_map_of_mem _ hy
      refine hasVerifiedEmail_intro hmem ?_ ?_
      · by_cases h : (y.email == e) = true
        · rw [if_pos h]; rfl
        · rw [if_neg h]
      · by_cases h : (y.email == e) = true
        · rw [if_pos h]; exact hv
        · rw [if_neg h]; exact hv
    · intro x hx hv
      have hx2 : ∃ y, y ∈ db ∧
          (if y.email == e then setOtpFields (genOtp n) (now + 60) y else y) = x := by
        simpa [stepDB, sendOtp] using hx
      rcases hx2 with ⟨y, hy, hfy⟩
      left
      refine hasVerifiedEmail_intro hy ?_ ?_
      · rw [← hfy]
        by_cases h : (y.email == e) = true
        · rw [if_pos h]; rfl
        · rw [if_neg h]
      · rw [← hfy] at hv
        by_cases h : (y.email == e) = true
        · rw [if_pos h] at hv; exact hv
        · rw [if_neg h] at hv; exact hv
  | verifyOtpOp e c now =>
    rcases verifyOtp_db_shape db e c now with hsh | ⟨hsh, hacc⟩
    · constructor
      · intro y hy hv
        have hstep : stepDB db (Op.verifyOtpOp e c now) = db := hsh
        rw [hstep]
        exact hasVerifiedEmail_intro hy rfl hv
      · intro x hx hv
        have hstep : stepDB db (Op.verifyOtpOp e c now) = db := hsh
        rw [hstep] at hx
        exact Or.inl (hasVerifiedEmail_intro hx rfl hv)
    · constructor
      · intro y hy hv
        have hstep : stepDB db (Op.verifyOtpOp e c now)
            = db.map (fun x => if x.email == e then setEmailVerified x else x) := hsh
        rw [hstep]
        have hmem : (if y.email == e then setEmailVerified y else y)
            ∈ db.map (fun x => if x.email == e then setEmailVerified x else x) :=
          List.mem_map_of_mem _ hy
        refine hasVerifiedEmail_intro hmem ?_ ?_
        · by_cases h : (y.email == e) = true
          · rw [if_pos h]; rfl
          · rw [if_neg h]
        · by_cases h : (y.email == e) = true
          · rw [if_pos h]; rfl
          · rw [if_neg h]; exact hv
      · intro x hx hv
        exact Or.inr ⟨e, c, now, rfl, hacc⟩

/-- C8 witness: a verified row survives a read-only operation with its flag
intact. -/
theorem email_verified_monotone_witness :
    hasVerifiedEmail (stepDB [sampleVerified] (Op.fetch 1))
      sampleVerified.email = true :=
  (email_verified_monotone [sampleVerified] (Op.fetch 1)).1 sampleVerified
    (by decide) (by decide)
